import Mathlib

/-!
# Verification of `build/update_manifest.py`

A shallow embedding of the manifest-update pipeline in
`src/build/update_manifest.py`, together with proofs settling the frozen
claims about it.

Conventions of the embedding:
* A parsed JSON document is modelled by `Json`; a JSON object is an
  association list of fields in insertion order, matching Python `dict`
  semantics (`json.load` preserves file order, assignment to an existing
  key replaces the value in place, assignment to a fresh key appends).
* Bytes are modelled as `Nat` (the hash functions reduce modulo 256 / 2^32
  where the real machine arithmetic would).
* The exceptions the script can raise are modelled by `PyErr`; a run of
  `main` terminates with exit status zero exactly when its result is `.ok`
  (the `__main__` wrapper turns an uncaught error into a nonzero exit).
-/

namespace UpdateManifest

/-- A parsed JSON value.  Objects are association lists in insertion order,
mirroring Python `dict`. -/
inductive Json where
  | str (s : String)
  | num (n : Int)
  | bool (b : Bool)
  | null
  | arr (elems : List Json)
  | obj (fields : List (String × Json))

/-- Look a key up in a JSON-object field list: first binding wins, as in a
Python `dict` (which can hold each key at most once). -/
def lookupKey : List (String × Json) → String → Option Json
  | [], _ => none
  | (k, v) :: rest, key => if k = key then some v else lookupKey rest key

/-- Python `d[key] = v` on a `dict` rendered as an association list: replace
the value at the first occurrence of `key` keeping its position, or append
`(key, v)` when `key` is absent. -/
def setKey : List (String × Json) → String → Json → List (String × Json)
  | [], key, v => [(key, v)]
  | (k, w) :: rest, key, v =>
    if k = key then (key, v) :: rest else (k, w) :: setKey rest key v

/-!
## Tag validation (lines 117–122)

The script checks `re.match(r"^v\d+\.\d+\.\d+$", latest_tag)`.  In Python,
`re.match` anchors at the start of the string only, and the `$`
metacharacter matches *either* at the end of the string *or* just before a
newline at the very end of the string; so the code also accepts a tag that
carries one trailing `'\n'`.  `pyTagMatch` embeds that behaviour.
(`\d` in Python 3 additionally matches non-ASCII Unicode decimal digits;
the embedding restricts digits to ASCII, which is the fragment all the
inputs below exercise.)
-/

/-- Consume one-or-more ASCII digits from the front; return the remainder,
or `none` when no digit is present. -/
def dropDigits1 : List Char → Option (List Char)
  | [] => none
  | c :: rest =>
    if c.isDigit then
      some (go rest)
    else
      none
where
  /-- Consume the longest digit run. -/
  go : List Char → List Char
    | [] => []
    | c :: rest => if c.isDigit then go rest else c :: rest

/-- After `v<digits>.<digits>.<digits>` has been consumed, Python's `$`
accepts the end of the string or a single trailing newline. -/
def pyDollarEnd : List Char → Bool
  | [] => true
  | [c] => c = '\n'
  | _ => false

/-- Embedding of `re.match(r"^v\d+\.\d+\.\d+$", tag) is not None`
(line 118), with Python's `$` semantics. -/
def pyTagMatch (tag : String) : Bool :=
  match tag.data with
  | 'v' :: rest =>
    match dropDigits1 rest with
    | none => false
    | some rest1 =>
      match rest1 with
      | '.' :: rest1' =>
        match dropDigits1 rest1' with
        | none => false
        | some rest2 =>
          match rest2 with
          | '.' :: rest2' =>
            match dropDigits1 rest2' with
            | none => false
            | some rest3 => pyDollarEnd rest3
          | _ => false
      | _ => false
  | _ => false

/-- Modelled from the spec: the strict `^v\d+\.\d+\.\d+$` full-string match
("the tag does not match the pattern ^v<digits>.<digits>.<digits>$"), with
`$` read as the exact end of the string and no trailing newline admitted. -/
def strictTagMatch (tag : String) : Bool :=
  match tag.data with
  | 'v' :: rest =>
    match dropDigits1 rest with
    | none => false
    | some rest1 =>
      match rest1 with
      | '.' :: rest1' =>
        match dropDigits1 rest1' with
        | none => false
        | some rest2 =>
          match rest2 with
          | '.' :: rest2' =>
            match dropDigits1 rest2' with
            | none => false
            | some rest3 => rest3.isEmpty
          | _ => false
      | _ => false
  | _ => false

/-!
## The retry wrapper `retry_with_backoff` (lines 26–72)

The wrapper runs `for attempt in range(max_retries)` and catches exactly
`urllib.error.HTTPError` (an HTTP status the transport surfaces as an
exception, carrying a status code and headers) and `urllib.error.URLError`
(connection errors, timeouts).  A single invocation of the wrapped callable
is modelled by a `FetchOutcome`; a whole hypothetical run of the callable is
a function `Nat → FetchOutcome α` giving the outcome of the `i`-th
invocation (zero-indexed).
-/

/-- A failure of one invocation that the wrapper catches. -/
inductive FailKind where
  /-- `urllib.error.HTTPError` with its status code and the optional parsed
  `Retry-After` header (`none` when the header is absent). -/
  | httpError (code : Nat) (retryAfter : Option Nat)
  /-- `urllib.error.URLError`: connection error, timeout, ... -/
  | urlError
deriving DecidableEq

/-- Outcome of a single invocation of the wrapped callable. -/
inductive FetchOutcome (α : Type) where
  | ok (v : α)
  | fail (k : FailKind)
deriving DecidableEq

/-- Does this outcome raise one of the caught exceptions? -/
def FetchOutcome.isFail : FetchOutcome α → Bool
  | .ok _ => false
  | .fail _ => true

/-- An error the whole wrapper can terminate with. -/
inductive RetryError where
  /-- The exception of the final invocation, re-raised by the bare `raise`
  (lines 62 and 70). -/
  | raised (k : FailKind)
  /-- The fallback `RuntimeError(f"Failed after ... attempts")` after the
  loop (line 72). -/
  | failedAfter (n : Nat)
deriving DecidableEq

/-- The sleep chosen for a failed attempt (lines 48–59): for HTTP 403/429
with a `Retry-After` header sleep the header value, otherwise sleep
`2 ^ attempt`. -/
def waitTime (k : FailKind) (attempt : Nat) : Nat :=
  match k with
  | .httpError code retryAfter =>
    if code = 403 ∨ code = 429 then
      match retryAfter with
      | some n => n
      | none => 2 ^ attempt
    else
      2 ^ attempt
  | .urlError => 2 ^ attempt

/-- Total version of `waitTime` over outcomes (0 on success, where no sleep
ever happens). -/
def outcomeWait (o : FetchOutcome α) (attempt : Nat) : Nat :=
  match o with
  | .ok _ => 0
  | .fail k => waitTime k attempt

/-- What one run of `retry_with_backoff` did: its result, the sleeps it
performed in order, and how many times it invoked the callable. -/
structure RetryRun (α : Type) where
  result : Except RetryError α
  sleeps : List Nat
  calls : Nat

/-- The loop body of `retry_with_backoff` from iteration `attempt` on:
return on success; on a caught exception sleep and continue when
`attempt < max_retries - 1`, re-raise otherwise; fall through to the
`RuntimeError` on line 72 when the loop is exhausted. -/
def retryLoop (func : Nat → FetchOutcome α) (maxRetries : Nat) (attempt : Nat) :
    RetryRun α :=
  if _h1 : attempt < maxRetries then
    match func attempt with
    | .ok v => ⟨.ok v, [], 1⟩
    | .fail k =>
      if _h2 : attempt < maxRetries - 1 then
        let rest := retryLoop func maxRetries (attempt + 1)
        ⟨rest.result, waitTime k attempt :: rest.sleeps, 1 + rest.calls⟩
      else
        ⟨.error (.raised k), [], 1⟩
  else
    ⟨.error (.failedAfter maxRetries), [], 0⟩
termination_by maxRetries - attempt
decreasing_by omega

/-- `retry_with_backoff(func, max_retries)` (line 26): run the loop from
attempt 0. -/
def retryWithBackoff (func : Nat → FetchOutcome α) (maxRetries : Nat) : RetryRun α :=
  retryLoop func maxRetries 0

/-!
## The pipeline `main` (lines 85–161)

`main` is straight-line code; its interactions with the outside world are
collected in a `PipelineEnv`:
* `manifestFields`: the object `json.load` produced from the manifest file
  (line 107; a run where that load itself fails dies before the part of the
  pipeline the claims are about and trivially performs no write);
* `releaseFetch`: the result of the retried release-metadata request,
  already projected to the `tag_name` field (lines 113–117);
* `assetsParse`: the result of `json.loads(assets)` on the `--assets`
  argument, `none` when the string is not valid JSON (lines 131–134);
* `fetchAsset`: for a given asset URL, the result of the retried download
  together with the streamed hash of its body, i.e. the value
  `calculate_hash(response)` returns (lines 143–144).

The git/commit phase (lines 163–181) is the out-of-scope external
collaborator; the modelled run ends at the manifest write.  Uncaught errors
make the process exit nonzero (lines 184–189), so exit status zero
corresponds exactly to an `.ok` result.
-/

/-- An exception the script can die with. -/
inductive PyErr where
  /-- A `RuntimeError` with its message. -/
  | runtimeError (msg : String)
  /-- An exhausted retried fetch: the re-raised transport exception. -/
  | transport (k : FailKind)
  /-- `KeyError` from a missing dictionary key. -/
  | keyError (key : String)
deriving DecidableEq

/-- Inputs and collaborator behaviour of one run of `main`. -/
structure PipelineEnv where
  repo : String
  manifestFields : List (String × Json)
  releaseFetch : Except PyErr String
  assetsParse : Option (List (String × String))
  fetchAsset : String → Except PyErr String

/-- Observable effects of one run of `main`: its exit, the asset downloads
it attempted (in order), and the records written to the manifest file (in
order; the release-metadata request is not an asset download). -/
structure RunResult where
  exit : Except PyErr Unit
  assetDownloads : List String
  manifestWrites : List (List (String × Json))

/-- Did the run end with a nonzero exit status? -/
def exitFailed : Except PyErr Unit → Bool
  | .error _ => true
  | .ok _ => false

/-- The asset download URL built on line 139:
`https://github.com/{repo}/releases/download/v{latest_version}/{asset_filename}`. -/
def assetUrl (repo version filename : String) : String :=
  "https://github.com/" ++ repo ++ "/releases/download/v" ++ version ++ "/" ++ filename

/-- The per-architecture loop (lines 137–152): build the asset URL, fetch
and hash it, and record `(arch, dict-of-url-and-hash)` entries in iteration
order.  Returns the assembled `arch_mapping` (or the first uncaught error)
together with the URLs whose download was attempted. -/
def processAssets (fetchAsset : String → Except PyErr String) (repo version : String) :
    List (String × String) → Except PyErr (List (String × Json)) × List String
  | [] => (.ok [], [])
  | (arch, filename) :: rest =>
    let url := assetUrl repo version filename
    match fetchAsset url with
    | .error e => (.error e, [url])
    | .ok digest =>
      let entry := Json.obj [("url", Json.str url), ("hash", Json.str ("SHA256:" ++ digest))]
      let (restResult, restUrls) := processAssets fetchAsset repo version rest
      (restResult.map (fun m => (arch, entry) :: m), url :: restUrls)

/-- Python `latest_version == current_version` (line 126): the left side is
a `str`; comparison with a non-string JSON value is `False`. -/
def pyEqStr (s : String) : Json → Bool
  | .str t => s = t
  | _ => false

/-- Lines 154–158: `manifest_data['architecture'] = arch_mapping` followed
by `manifest_data['version'] = latest_version`. -/
def mergeStep (fields : List (String × Json)) (newVersion : String)
    (archMapping : List (String × Json)) : List (String × Json) :=
  setKey (setKey fields "architecture" (Json.obj archMapping)) "version" (Json.str newVersion)

/-- The pipeline `main`, in the script's statement order: read
`manifest_data['version']`, resolve the latest release tag, validate it,
short-circuit when the version is unchanged, parse the `--assets` mapping,
download and hash every asset, merge, and finally write the manifest. -/
def mainRun (env : PipelineEnv) : RunResult :=
  match lookupKey env.manifestFields "version" with
  | none => ⟨.error (.keyError "version"), [], []⟩
  | some currentVersion =>
    match env.releaseFetch with
    | .error e => ⟨.error e, [], []⟩
    | .ok latestTag =>
      if pyTagMatch latestTag then
        let latestVersion := latestTag.drop 1
        if pyEqStr latestVersion currentVersion then
          ⟨.ok (), [], []⟩
        else
          match env.assetsParse with
          | none => ⟨.error (.runtimeError "Invalid JSON for assets argument"), [], []⟩
          | some assets =>
            match processAssets env.fetchAsset env.repo latestVersion assets with
            | (.error e, urls) => ⟨.error e, urls, []⟩
            | (.ok archMapping, urls) =>
              ⟨.ok (), urls, [mergeStep env.manifestFields latestVersion archMapping]⟩
      else
        ⟨.error (.runtimeError "Latest tag does not match the expected format."), [], []⟩

/-!
## The manifest write (lines 160–161)

`open(manifest_path, "w")` truncates the target file in place and
`json.dump` then streams the serialized record into it sequentially.  The
on-disk state observable if the process crashes after `bytesWritten` bytes
of the new serialization have been flushed is therefore a prefix of the new
content — the original content is gone as soon as the file is opened.
(A write-then-rename persist would instead show the original content at
every crash point.)
-/

/-- On-disk manifest content observable when the process crashes
`bytesWritten` bytes into the in-place rewrite of lines 160–161. -/
def persistCrashView (newContent : String) (bytesWritten : Nat) : String :=
  { data := newContent.data.take bytesWritten }

/-!
## SHA-256 and `calculate_hash` (lines 75–82, 143–145)

`calculate_hash` feeds the response body into `hashlib.sha256()` in
8192-byte chunks and returns `hexdigest()`.  The `hashlib` contract is that
`m.update(a); m.update(b)` is equivalent to `m.update(a + b)`: a digest
context is therefore modelled by the byte sequence absorbed so far, and
`hexdigest` applies the SHA-256 function (FIPS 180-4, implemented below
over `Nat` with explicit reduction modulo `2 ^ 32`) to that sequence.
-/

/-- Reduce to a 32-bit word. -/
def w32 (x : Nat) : Nat := x % 4294967296

/-- Logical right shift of a 32-bit word. -/
def shr32 (x n : Nat) : Nat := x / 2 ^ n

/-- Right rotation of a 32-bit word (`x` is expected reduced). -/
def rotr32 (x n : Nat) : Nat := w32 (x / 2 ^ n + x % 2 ^ n * 2 ^ (32 - n))

/-- Bitwise complement of a 32-bit word. -/
def not32 (x : Nat) : Nat := 4294967295 - x % 4294967296

/-- SHA-256 choice function. -/
def chFn (x y z : Nat) : Nat := (x &&& y) ^^^ (not32 x &&& z)

/-- SHA-256 majority function. -/
def majFn (x y z : Nat) : Nat := (x &&& y) ^^^ (x &&& z) ^^^ (y &&& z)

/-- SHA-256 Σ0. -/
def bigSigma0 (x : Nat) : Nat := rotr32 x 2 ^^^ rotr32 x 13 ^^^ rotr32 x 22

/-- SHA-256 Σ1. -/
def bigSigma1 (x : Nat) : Nat := rotr32 x 6 ^^^ rotr32 x 11 ^^^ rotr32 x 25

/-- SHA-256 σ0. -/
def smallSigma0 (x : Nat) : Nat := rotr32 x 7 ^^^ rotr32 x 18 ^^^ shr32 x 3

/-- SHA-256 σ1. -/
def smallSigma1 (x : Nat) : Nat := rotr32 x 17 ^^^ rotr32 x 19 ^^^ shr32 x 10

/-- The 64 SHA-256 round constants (FIPS 180-4 §4.2.2, written in
decimal). -/
def K256 : List Nat :=
  [1116352408, 1899447441, 3049323471, 3921009573, 961987163,
   1508970993, 2453635748, 2870763221, 3624381080, 310598401,
   607225278, 1426881987, 1925078388, 2162078206, 2614888103,
   3248222580, 3835390401, 4022224774, 264347078, 604807628,
   770255983, 1249150122, 1555081692, 1996064986, 2554220882,
   2821834349, 2952996808, 3210313671, 3336571891, 3584528711,
   113926993, 338241895, 666307205, 773529912, 1294757372,
   1396182291, 1695183700, 1986661051, 2177026350, 2456956037,
   2730485921, 2820302411, 3259730800, 3345764771, 3516065817,
   3600352804, 4094571909, 275423344, 430227734, 506948616,
   659060556, 883997877, 958139571, 1322822218, 1537002063,
   1747873779, 1955562222, 2024104815, 2227730452, 2361852424,
   2428436474, 2756734187, 3204031479, 3329325298]

/-- The running hash state `(a, b, c, d, e, f, g, h)`. -/
structure Vec8 where
  a : Nat
  b : Nat
  c : Nat
  d : Nat
  e : Nat
  f : Nat
  g : Nat
  h : Nat

/-- The SHA-256 initial hash value (FIPS 180-4 §5.3.3, written in
decimal). -/
def H0 : Vec8 :=
  ⟨1779033703, 3144134277, 1013904242, 2773480762,
   1359893119, 2600822924, 528734635, 1541459225⟩

/-- `k` bytes of `n`, big-endian. -/
def bytesBE : Nat → Nat → List Nat
  | 0, _ => []
  | k + 1, n => bytesBE k (n / 256) ++ [n % 256]

/-- SHA-256 message padding: append `0x80`, then zeros up to 56 mod 64,
then the bit length as 8 big-endian bytes. -/
def padMsg (msg : List Nat) : List Nat :=
  let len := msg.length
  msg ++ [128] ++ List.replicate ((119 - len % 64) % 64) 0 ++ bytesBE 8 (8 * len)

/-- Split into 64-byte blocks. -/
def toBlocks : List Nat → List (List Nat)
  | [] => []
  | x :: rest => (x :: rest).take 64 :: toBlocks ((x :: rest).drop 64)
termination_by l => l.length
decreasing_by simp [List.length_drop]; omega

/-- Pack bytes into 32-bit big-endian words. -/
def wordsBE : List Nat → List Nat
  | b0 :: b1 :: b2 :: b3 :: rest => w32 (((b0 * 256 + b1) * 256 + b2) * 256 + b3) :: wordsBE rest
  | _ => []

/-- Extend the message schedule; `acc` holds the words produced so far,
newest first, so `acc[1] = w[t-2]`, `acc[6] = w[t-7]`, `acc[14] = w[t-15]`,
`acc[15] = w[t-16]` when computing `w[t]`. -/
def scheduleRev (acc : List Nat) : Nat → List Nat
  | 0 => acc
  | n + 1 =>
    let wt := w32 (smallSigma1 (acc.getD 1 0) + acc.getD 6 0 +
      smallSigma0 (acc.getD 14 0) + acc.getD 15 0)
    scheduleRev (wt :: acc) n

/-- The 64-entry message schedule of one block. -/
def schedule (block : List Nat) : List Nat :=
  (scheduleRev (wordsBE block).reverse 48).reverse

/-- One SHA-256 round; `kw` is the pair of round constant and schedule
word. -/
def roundStep (st : Vec8) (kw : Nat × Nat) : Vec8 :=
  let t1 := w32 (st.h + bigSigma1 st.e + chFn st.e st.f st.g + kw.1 + kw.2)
  let t2 := w32 (bigSigma0 st.a + majFn st.a st.b st.c)
  ⟨w32 (t1 + t2), st.a, st.b, st.c, w32 (st.d + t1), st.e, st.f, st.g⟩

/-- Compress one 64-byte block into the running state. -/
def compressBlock (st : Vec8) (block : List Nat) : Vec8 :=
  let fin := (K256.zip (schedule block)).foldl roundStep st
  ⟨w32 (st.a + fin.a), w32 (st.b + fin.b), w32 (st.c + fin.c), w32 (st.d + fin.d),
   w32 (st.e + fin.e), w32 (st.f + fin.f), w32 (st.g + fin.g), w32 (st.h + fin.h)⟩

/-- SHA-256 of a byte sequence, as the final eight-word state. -/
def sha256Words (msg : List Nat) : Vec8 :=
  (toBlocks (padMsg msg)).foldl compressBlock H0

/-- The four big-endian bytes of a 32-bit word. -/
def wordBytesBE (w : Nat) : List Nat :=
  [w / 16777216 % 256, w / 65536 % 256, w / 256 % 256, w % 256]

/-- SHA-256 digest of a byte sequence: 32 bytes. -/
def sha256Bytes (msg : List Nat) : List Nat :=
  let v := sha256Words msg
  wordBytesBE v.a ++ wordBytesBE v.b ++ wordBytesBE v.c ++ wordBytesBE v.d ++
  wordBytesBE v.e ++ wordBytesBE v.f ++ wordBytesBE v.g ++ wordBytesBE v.h

/-- The sixteen lowercase hexadecimal digit characters. -/
def hexChars : List Char :=
  "0123456789abcdef".data

/-- The lowercase hexadecimal digit of `n % 16`. -/
def hexDigit (n : Nat) : Char :=
  hexChars.getD (n % 16) '0'

/-- The two lowercase hexadecimal characters of a byte. -/
def byteHex (b : Nat) : List Char :=
  [hexDigit (b / 16), hexDigit b]

/-- `hashlib`'s `hexdigest()` rendering: lowercase hex of the digest. -/
def sha256Hex (msg : List Nat) : String :=
  { data := ((sha256Bytes msg).map byteHex).flatten }

/-- A `hashlib.sha256()` context: the bytes absorbed so far (`update`
concatenates, `hexdigest` hashes the concatenation — the documented
`hashlib` semantics). -/
structure Sha256Ctx where
  absorbed : List Nat

/-- `hashlib.sha256()` (line 76). -/
def Sha256Ctx.new : Sha256Ctx := ⟨[]⟩

/-- `sha256_hash.update(chunk)` (line 81). -/
def Sha256Ctx.update (ctx : Sha256Ctx) (chunk : List Nat) : Sha256Ctx :=
  ⟨ctx.absorbed ++ chunk⟩

/-- `sha256_hash.hexdigest()` (line 82). -/
def Sha256Ctx.hexdigest (ctx : Sha256Ctx) : String :=
  sha256Hex ctx.absorbed

/-- The `while True` read loop of `calculate_hash` (lines 77–81): the
stream is the list of chunks successive `response.read(8192)` calls
return; the loop stops at the first empty chunk. -/
def calcHashLoop (ctx : Sha256Ctx) : List (List Nat) → Sha256Ctx
  | [] => ctx
  | chunk :: rest => if chunk = [] then ctx else calcHashLoop (ctx.update chunk) rest

/-- `calculate_hash(response)` (lines 75–82) over a chunked stream. -/
def calculate_hash (chunks : List (List Nat)) : String :=
  (calcHashLoop Sha256Ctx.new chunks).hexdigest

/-- Line 145: `formatted_hash = f"SHA256:{new_hash}"`. -/
def formattedHash (chunks : List (List Nat)) : String :=
  "SHA256:" ++ calculate_hash chunks

/-- A lowercase hexadecimal character. -/
def isLowerHexChar (c : Char) : Bool :=
  c.isDigit || ('a' ≤ c && c ≤ 'f')

/-!
## Spec-side comparison definitions and concrete runs
-/

/-- The sleep the specification prescribes for a failed attempt before the
last: the `Retry-After` value for a rate-limited (403/429) failure carrying
the header, and `2 ^ attempt` in every other failure case. -/
def claimedSleep (o : FetchOutcome α) (attempt : Nat) : Nat :=
  match o with
  | .fail (.httpError code (some n)) => if code = 403 ∨ code = 429 then n else 2 ^ attempt
  | _ => 2 ^ attempt

/-- The architecture sub-object of a manifest record (empty when absent or
not an object). -/
def archEntries (fields : List (String × Json)) : List (String × Json) :=
  match lookupKey fields "architecture" with
  | some (Json.obj entries) => entries
  | _ => []

/-- An asset entry as it sits in a manifest before a run. -/
def arm64Entry : Json :=
  Json.obj [("url", Json.str "https://github.com/o/r/releases/download/v1.0.0/app-arm64.zip"),
            ("hash", Json.str "SHA256:aa")]

/-- A second pre-existing asset entry. -/
def old64Entry : Json :=
  Json.obj [("url", Json.str "https://github.com/o/r/releases/download/v1.0.0/app-64bit.zip"),
            ("hash", Json.str "SHA256:bb")]

/-- A manifest carrying an extra top-level field and an `arm64`
architecture entry. -/
def c1Manifest : List (String × Json) :=
  [("version", Json.str "1.0.0"),
   ("homepage", Json.str "https://example.com"),
   ("architecture", Json.obj [("64bit", old64Entry), ("arm64", arm64Entry)])]

/-- A run's assembled `arch_mapping` covering only `64bit`. -/
def c1ArchResults : List (String × Json) :=
  [("64bit", Json.obj [("url", Json.str "https://github.com/o/r/releases/download/v2.0.0/app-64bit.zip"),
                       ("hash", Json.str "SHA256:cc")])]

/-- A run whose upstream version equals the manifest version. -/
def envNoOp : PipelineEnv :=
  ⟨"o/r", [("version", Json.str ("v1.2.3".drop 1)), ("homepage", Json.str "https://example.com")],
   .ok "v1.2.3", some [("64bit", "app.zip")], fun _ => .ok "00"⟩

/-- A no-op run whose `--assets` argument is not valid JSON. -/
def envNoOpBadAssets : PipelineEnv :=
  ⟨"o/r", [("version", Json.str ("v1.2.3".drop 1))], .ok "v1.2.3", none, fun _ => .ok "00"⟩

/-- An update run whose asset download fails terminally. -/
def envAssetFail : PipelineEnv :=
  ⟨"o/r", [("version", Json.str "1.0.0")], .ok "v2.0.0", some [("64bit", "app.zip")],
   fun _ => .error (.transport (.httpError 404 none))⟩

/-- An update run in which every step succeeds. -/
def envWriteOk : PipelineEnv :=
  ⟨"o/r", [("version", Json.str "1.0.0"), ("homepage", Json.str "https://example.com")],
   .ok "v2.0.0", some [("64bit", "app.zip")], fun _ => .ok "dd"⟩

/-- A run whose upstream tag carries a trailing newline. -/
def envNewlineTag : PipelineEnv :=
  ⟨"o/r", [("version", Json.str "1.2.3")], .ok "v1.2.3\n", some [("64bit", "app.zip")],
   fun _ => .ok "ee"⟩

/-- A callable that is rate-limited with a `Retry-After: 7` header on its
first invocation and hits a network error afterwards. -/
def c5Func : Nat → FetchOutcome Nat :=
  fun j => if j = 0 then .fail (.httpError 429 (some 7)) else .fail .urlError

/-- A callable that fails on every invocation, with a distinguishable
outcome on the last of three attempts. -/
def c6FailFunc : Nat → FetchOutcome Nat :=
  fun j => if j = 2 then .fail .urlError else .fail (.httpError 500 none)

/-- A callable that succeeds immediately. -/
def c6OkFunc : Nat → FetchOutcome Nat := fun _ => .ok 42

/-- A callable whose first success comes on its second invocation, after
one network failure. -/
def c6LateFunc : Nat → FetchOutcome Nat :=
  fun j => if j = 0 then .fail .urlError else .ok 7

/-- A callable that always hits a network error. -/
def c9Func : Nat → FetchOutcome Nat := fun _ => .fail .urlError

/-!
## Dictionary-update lemmas
-/

theorem lookupKey_setKey_self (f : List (String × Json)) (key : String) (v : Json) :
    lookupKey (setKey f key v) key = some v := by
  induction f with
  | nil => simp [setKey, lookupKey]
  | cons p rest ih =>
    obtain ⟨k, w⟩ := p
    by_cases h : k = key
    · simp [setKey, lookupKey, h]
    · simp [setKey, lookupKey, h, ih]

theorem lookupKey_setKey_other (f : List (String × Json)) (key key' : String) (v : Json)
    (h : key' ≠ key) :
    lookupKey (setKey f key v) key' = lookupKey f key' := by
  induction f with
  | nil => simp [setKey, lookupKey, Ne.symm h]
  | cons p rest ih =>
    obtain ⟨k, w⟩ := p
    by_cases hk : k = key
    · subst hk
      simp [setKey, lookupKey, Ne.symm h]
    · simp [setKey, lookupKey, hk, ih]

/-!
## Retry-wrapper lemmas
-/

theorem retryLoop_ne_failedAfter : ∀ (fuel : Nat) (func : Nat → FetchOutcome α)
    (maxRetries attempt n : Nat), maxRetries - attempt ≤ fuel → attempt < maxRetries →
    (retryLoop func maxRetries attempt).result ≠ Except.error (RetryError.failedAfter n)
  | 0, func, maxRetries, attempt, n => by
    intro hle hlt
    omega
  | fuel + 1, func, maxRetries, attempt, n => by
    intro hle hlt
    rw [retryLoop]
    simp only [dif_pos hlt]
    cases hfa : func attempt with
    | ok v => simp
    | fail k =>
      by_cases h2 : attempt < maxRetries - 1
      · simpa [h2] using
          retryLoop_ne_failedAfter fuel func maxRetries (attempt + 1) n (by omega) (by omega)
      · simp [h2]

theorem retryLoop_allFail : ∀ (fuel : Nat) (func : Nat → FetchOutcome α)
    (maxRetries attempt : Nat) (k : FailKind), maxRetries - attempt ≤ fuel →
    attempt < maxRetries →
    (∀ j, attempt ≤ j → j < maxRetries → (func j).isFail = true) →
    func (maxRetries - 1) = .fail k →
    (retryLoop func maxRetries attempt).result = Except.error (RetryError.raised k) ∧
    (retryLoop func maxRetries attempt).calls = maxRetries - attempt
  | 0, func, maxRetries, attempt, k => by
    intro hle hlt hfail hlast
    omega
  | fuel + 1, func, maxRetries, attempt, k => by
    intro hle hlt hfail hlast
    rw [retryLoop]
    simp only [dif_pos hlt]
    cases hfa : func attempt with
    | ok v =>
      have := hfail attempt (Nat.le_refl _) hlt
      rw [hfa] at this
      simp [FetchOutcome.isFail] at this
    | fail k' =>
      by_cases h2 : attempt < maxRetries - 1
      · have ih := retryLoop_allFail fuel func maxRetries (attempt + 1) k
          (by omega) (by omega) (fun j hj1 hj2 => hfail j (by omega) hj2) hlast
        simp [h2, ih.1, ih.2]
        omega
      · have hat : attempt = maxRetries - 1 := by omega
        rw [hat] at hfa
        rw [hlast] at hfa
        cases hfa
        simp [h2]
        omega

theorem retryLoop_firstSuccess : ∀ (fuel : Nat) (func : Nat → FetchOutcome α)
    (maxRetries attempt i : Nat) (v : α), maxRetries - attempt ≤ fuel →
    attempt ≤ i → i < maxRetries →
    (∀ j, attempt ≤ j → j < i → (func j).isFail = true) →
    func i = .ok v →
    (retryLoop func maxRetries attempt).result = Except.ok v ∧
    (retryLoop func maxRetries attempt).calls = i + 1 - attempt
  | 0, func, maxRetries, attempt, i, v => by
    intro hle hai him hfail hsucc
    omega
  | fuel + 1, func, maxRetries, attempt, i, v => by
    intro hle hai him hfail hsucc
    rw [retryLoop]
    simp only [dif_pos (show attempt < maxRetries by omega)]
    by_cases hei : attempt = i
    · subst hei
      rw [hsucc]
      simp
    · have hfa := hfail attempt (Nat.le_refl _) (by omega)
      cases hfo : func attempt with
      | ok w => rw [hfo] at hfa; simp [FetchOutcome.isFail] at hfa
      | fail k =>
        have ih := retryLoop_firstSuccess fuel func maxRetries (attempt + 1) i v
          (by omega) (by omega) him (fun j hj1 hj2 => hfail j (by omega) hj2) hsucc
        simp [show attempt < maxRetries - 1 by omega, ih.1, ih.2]
        omega

theorem retryLoop_sleeps_get : ∀ (i : Nat) (func : Nat → FetchOutcome α)
    (maxRetries attempt : Nat), attempt + i < maxRetries - 1 →
    (∀ j, attempt ≤ j → j ≤ attempt + i → (func j).isFail = true) →
    (retryLoop func maxRetries attempt).sleeps.get? i =
      some (outcomeWait (func (attempt + i)) (attempt + i))
  | 0, func, maxRetries, attempt => by
    intro hlt hfail
    have hf := hfail attempt (Nat.le_refl _) (by omega)
    rw [retryLoop]
    simp only [dif_pos (show attempt < maxRetries by omega)]
    cases hfa : func attempt with
    | ok v => rw [hfa] at hf; simp [FetchOutcome.isFail] at hf
    | fail k => simp [show attempt < maxRetries - 1 by omega, outcomeWait, hfa]
  | i + 1, func, maxRetries, attempt => by
    intro hlt hfail
    have hf := hfail attempt (Nat.le_refl _) (by omega)
    rw [retryLoop]
    simp only [dif_pos (show attempt < maxRetries by omega)]
    cases hfa : func attempt with
    | ok v => rw [hfa] at hf; simp [FetchOutcome.isFail] at hf
    | fail k =>
      have ih := retryLoop_sleeps_get i func maxRetries (attempt + 1)
        (by omega) (fun j hj1 hj2 => hfail j (by omega) (by omega))
      simp only [show attempt < maxRetries - 1 by omega, dif_pos]
      simpa [show attempt + 1 + i = attempt + (i + 1) by omega] using ih

theorem outcomeWait_eq_claimedSleep (o : FetchOutcome α) (attempt : Nat)
    (h : o.isFail = true) : outcomeWait o attempt = claimedSleep o attempt := by
  cases o with
  | ok v => simp [FetchOutcome.isFail] at h
  | fail k =>
    cases k with
    | urlError => rfl
    | httpError code retryAfter =>
      cases retryAfter with
      | some n => rfl
      | none =>
        simp only [outcomeWait, waitTime, claimedSleep]
        split <;> rfl

/-!
## Claims about the retry wrapper
-/

/-- Claim C5: for every failed attempt before the last in the retry
wrapper, if the failure is an HTTP error with status 403 or 429 and a
`Retry-After` header is present, the wrapper sleeps exactly the header's
value in seconds; in every other failure case it sleeps `2 ^ attempt`
seconds, with `attempt` zero-indexed. -/
theorem claim_C5 (func : Nat → FetchOutcome α) (maxRetries i : Nat)
    (h1 : i < maxRetries - 1) (h2 : ∀ j, j ≤ i → (func j).isFail = true) :
    (retryWithBackoff func maxRetries).sleeps.get? i = some (claimedSleep (func i) i) := by
  have h := retryLoop_sleeps_get i func maxRetries 0 (by omega)
    (fun j _ hj2 => h2 j (by omega))
  rw [retryWithBackoff]
  simpa [outcomeWait_eq_claimedSleep _ _ (h2 i (Nat.le_refl _))] using h

theorem claim_C5_witness :
    (0 < 3 - 1 ∧ (∀ j, j ≤ 0 → (c5Func j).isFail = true)) ∧
    (retryWithBackoff c5Func 3).sleeps.get? 0 = some (claimedSleep (c5Func 0) 0) :=
  ⟨⟨by decide, by decide⟩, claim_C5 c5Func 3 0 (by decide) (by decide)⟩

/-- Claim C6: when the operation fails on all `maxAttempts` consecutive
invocations, the wrapper makes exactly `maxAttempts` calls and propagates
the final invocation's own error unmodified; and on the first success —
at whatever attempt `i` it occurs, all earlier attempts having failed —
it returns that invocation's result immediately, after exactly `i + 1`
invocations and none beyond it. -/
theorem claim_C6 (func : Nat → FetchOutcome α) (maxAttempts : Nat)
    (h : 1 ≤ maxAttempts) :
    (∀ k, (∀ j, j < maxAttempts → (func j).isFail = true) →
      func (maxAttempts - 1) = .fail k →
      (retryWithBackoff func maxAttempts).result = .error (.raised k) ∧
      (retryWithBackoff func maxAttempts).calls = maxAttempts) ∧
    (∀ i v, i < maxAttempts → (∀ j, j < i → (func j).isFail = true) →
      func i = .ok v →
      (retryWithBackoff func maxAttempts).result = .ok v ∧
      (retryWithBackoff func maxAttempts).calls = i + 1) := by
  constructor
  · intro k hfail hlast
    have h2 := retryLoop_allFail maxAttempts func maxAttempts 0 k (by omega) (by omega)
      (fun j _ hj2 => hfail j hj2) hlast
    rw [retryWithBackoff]
    simpa using h2
  · intro i v him hfail hv
    have h2 := retryLoop_firstSuccess maxAttempts func maxAttempts 0 i v
      (by omega) (by omega) him (fun j _ hj2 => hfail j hj2) hv
    rw [retryWithBackoff]
    simpa using h2

theorem claim_C6_witness :
    (1 ≤ 3 ∧ (∀ j, j < 3 → (c6FailFunc j).isFail = true) ∧
      c6FailFunc (3 - 1) = .fail .urlError ∧ c6OkFunc 0 = .ok 42 ∧
      (1 < 3 ∧ (∀ j, j < 1 → (c6LateFunc j).isFail = true) ∧ c6LateFunc 1 = .ok 7)) ∧
    ((retryWithBackoff c6FailFunc 3).result = .error (.raised .urlError) ∧
      (retryWithBackoff c6FailFunc 3).calls = 3) ∧
    ((retryWithBackoff c6OkFunc 3).result = .ok 42 ∧
      (retryWithBackoff c6OkFunc 3).calls = 1) ∧
    ((retryWithBackoff c6LateFunc 3).result = .ok 7 ∧
      (retryWithBackoff c6LateFunc 3).calls = 2) := by
  refine ⟨⟨by decide, by decide, by decide, by decide, by decide, by decide, by decide⟩,
    ?_, ?_, ?_⟩
  · exact (claim_C6 c6FailFunc 3 (by decide)).1 .urlError (by decide) (by decide)
  · exact (claim_C6 c6OkFunc 3 (by decide)).2 0 42 (by decide) (by decide) (by decide)
  · exact (claim_C6 c6LateFunc 3 (by decide)).2 1 7 (by decide) (by decide) (by decide)

/-- Claim C9: for `maxAttempts ≥ 1` the fallback `RuntimeError` after the
retry loop is unreachable — every run either returns the operation's
result or re-raises the operation's own final error, never the fallback. -/
theorem claim_C9 (func : Nat → FetchOutcome α) (maxRetries n : Nat)
    (h : 1 ≤ maxRetries) :
    (retryWithBackoff func maxRetries).result ≠ .error (.failedAfter n) := by
  rw [retryWithBackoff]
  exact retryLoop_ne_failedAfter maxRetries func maxRetries 0 n (by omega) (by omega)

theorem claim_C9_witness :
    1 ≤ 1 ∧ (retryWithBackoff c9Func 1).result ≠ .error (.failedAfter 1) :=
  ⟨by decide, claim_C9 c9Func 1 1 (by decide)⟩

/-!
## Claims about the pipeline
-/

/-- Claim C3: when the resolved upstream version equals the manifest's
current version, the run is a no-op — no asset download is attempted, the
manifest is not written, and the process exits with status zero. -/
theorem claim_C3 (env : PipelineEnv) (tag : String)
    (h1 : env.releaseFetch = .ok tag)
    (h2 : pyTagMatch tag = true)
    (h3 : lookupKey env.manifestFields "version" = some (Json.str (tag.drop 1))) :
    (mainRun env).exit = .ok () ∧ (mainRun env).assetDownloads = [] ∧
    (mainRun env).manifestWrites = [] := by
  unfold mainRun
  rw [h3, h1]
  simp [h2, pyEqStr]

theorem claim_C3_witness :
    (envNoOp.releaseFetch = .ok "v1.2.3" ∧ pyTagMatch "v1.2.3" = true ∧
      lookupKey envNoOp.manifestFields "version" = some (Json.str ("v1.2.3".drop 1))) ∧
    (mainRun envNoOp).exit = .ok () ∧ (mainRun envNoOp).assetDownloads = [] ∧
    (mainRun envNoOp).manifestWrites = [] :=
  ⟨⟨rfl, by decide, rfl⟩, claim_C3 envNoOp "v1.2.3" rfl (by decide) rfl⟩

/-- Claim C10: the `--assets` argument is parsed only after the version
comparison, so a run whose resolved version equals the current one exits
with status zero even when the assets argument is not valid JSON. -/
theorem claim_C10 (env : PipelineEnv) (tag : String)
    (h1 : env.releaseFetch = .ok tag)
    (h2 : pyTagMatch tag = true)
    (h3 : lookupKey env.manifestFields "version" = some (Json.str (tag.drop 1)))
    (_h4 : env.assetsParse = none) :
    (mainRun env).exit = .ok () := by
  unfold mainRun
  rw [h3, h1]
  simp [h2, pyEqStr]

theorem claim_C10_witness :
    (envNoOpBadAssets.releaseFetch = .ok "v1.2.3" ∧ pyTagMatch "v1.2.3" = true ∧
      lookupKey envNoOpBadAssets.manifestFields "version" =
        some (Json.str ("v1.2.3".drop 1)) ∧
      envNoOpBadAssets.assetsParse = none) ∧
    (mainRun envNoOpBadAssets).exit = .ok () :=
  ⟨⟨rfl, by decide, rfl, rfl⟩, claim_C10 envNoOpBadAssets "v1.2.3" rfl (by decide) rfl rfl⟩

/-- Claim C8: a run that fails anywhere before the final write leaves the
manifest file untouched, and a write happens only after every requested
architecture's hash has been resolved — the single record written is the
fully merged one. -/
theorem claim_C8 (env : PipelineEnv) :
    (exitFailed (mainRun env).exit = true → (mainRun env).manifestWrites = []) ∧
    ((mainRun env).manifestWrites ≠ [] → ∃ tag assets archMapping,
      env.releaseFetch = .ok tag ∧ pyTagMatch tag = true ∧
      env.assetsParse = some assets ∧
      (processAssets env.fetchAsset env.repo (tag.drop 1) assets).1 = .ok archMapping ∧
      (mainRun env).manifestWrites =
        [mergeStep env.manifestFields (tag.drop 1) archMapping]) := by
  unfold mainRun
  split
  · exact ⟨fun _ => rfl, fun hx => absurd rfl hx⟩
  split
  · exact ⟨fun _ => rfl, fun hx => absurd rfl hx⟩
  next currentVersion _hv tag hr =>
    split
    case isFalse => exact ⟨fun _ => rfl, fun hx => absurd rfl hx⟩
    case isTrue ht =>
      dsimp only
      split
      case isTrue => exact ⟨fun _ => rfl, fun hx => absurd rfl hx⟩
      case isFalse he =>
        split
        · exact ⟨fun _ => rfl, fun hx => absurd rfl hx⟩
        next assets ha =>
          split
          next e urls hp => exact ⟨fun _ => rfl, fun hx => absurd rfl hx⟩
          next archMapping urls hp =>
            refine ⟨fun hx => ?_,
              fun _ => ⟨tag, assets, archMapping, hr, ht, ha, by rw [hp], rfl⟩⟩
            simp [exitFailed] at hx

theorem claim_C8_witness :
    (exitFailed (mainRun envAssetFail).exit = true ∧
      (mainRun envAssetFail).manifestWrites = []) ∧
    ((mainRun envWriteOk).manifestWrites ≠ [] ∧ ∃ tag assets archMapping,
      envWriteOk.releaseFetch = .ok tag ∧ pyTagMatch tag = true ∧
      envWriteOk.assetsParse = some assets ∧
      (processAssets envWriteOk.fetchAsset envWriteOk.repo (tag.drop 1) assets).1 =
        .ok archMapping ∧
      (mainRun envWriteOk).manifestWrites =
        [mergeStep envWriteOk.manifestFields (tag.drop 1) archMapping]) := by
  have hne : (mainRun envWriteOk).manifestWrites ≠ [] := by
    rw [show (mainRun envWriteOk).manifestWrites =
      [mergeStep envWriteOk.manifestFields "2.0.0"
        [("64bit", Json.obj [("url", Json.str (assetUrl "o/r" "2.0.0" "app.zip")),
          ("hash", Json.str "SHA256:dd")])]] from rfl]
    exact List.cons_ne_nil _ _
  exact ⟨⟨rfl, (claim_C8 envAssetFail).1 rfl⟩, hne, (claim_C8 envWriteOk).2 hne⟩

/-!
## Claims about the merge and the write
-/

/-- Claim C1 fails on the code: the `arm64` architecture entry, present in
the manifest and absent from this run's asset results, is dropped by the
merge on lines 154–158 rather than carried through. -/
theorem counterexample_C1 :
    lookupKey (archEntries c1Manifest) "arm64" = some arm64Entry ∧
    lookupKey (archEntries (mergeStep c1Manifest "2.0.0" c1ArchResults)) "arm64" = none :=
  ⟨rfl, rfl⟩

/-- Claim C1 (amended): the merged record equals the input except that
`version` is replaced and the whole `architecture` object is replaced by
this run's asset results — architecture keys absent from the run's mapping
are dropped; every other top-level field is carried through unchanged. -/
theorem claim_C1 (fields : List (String × Json)) (newVersion : String)
    (archResults : List (String × Json)) (k : String)
    (h1 : k ≠ "version") (h2 : k ≠ "architecture") :
    lookupKey (mergeStep fields newVersion archResults) "version" =
      some (Json.str newVersion) ∧
    lookupKey (mergeStep fields newVersion archResults) "architecture" =
      some (Json.obj archResults) ∧
    lookupKey (mergeStep fields newVersion archResults) k = lookupKey fields k := by
  refine ⟨lookupKey_setKey_self _ _ _, ?_, ?_⟩
  · rw [mergeStep,
      lookupKey_setKey_other _ _ _ _ (by decide : ("architecture" : String) ≠ "version")]
    exact lookupKey_setKey_self _ _ _
  · rw [mergeStep, lookupKey_setKey_other _ _ _ _ h1, lookupKey_setKey_other _ _ _ _ h2]

theorem claim_C1_witness :
    (("homepage" : String) ≠ "version" ∧ ("homepage" : String) ≠ "architecture") ∧
    lookupKey (mergeStep c1Manifest "2.0.0" c1ArchResults) "version" =
      some (Json.str "2.0.0") ∧
    lookupKey (mergeStep c1Manifest "2.0.0" c1ArchResults) "architecture" =
      some (Json.obj c1ArchResults) ∧
    lookupKey (mergeStep c1Manifest "2.0.0" c1ArchResults) "homepage" =
      lookupKey c1Manifest "homepage" :=
  ⟨⟨by decide, by decide⟩, claim_C1 c1Manifest "2.0.0" c1ArchResults "homepage"
    (by decide) (by decide)⟩

/-- Claim C2 fails on the code: the write on lines 160–161 opens the
manifest in truncating write mode and streams into it, so a crash three
bytes into the rewrite leaves on-disk content that is neither the old nor
the new manifest. -/
theorem counterexample_C2 :
    persistCrashView "version: 2.0.0" 3 ≠ "version: 1.0.0" ∧
    persistCrashView "version: 2.0.0" 3 ≠ "version: 2.0.0" := by
  constructor <;> decide

/-- Claim C2 (amended): the persist step rewrites the manifest in place —
truncate, then stream the new serialization — so an uninterrupted write
produces exactly the new content, but for any distinct nonempty old and
new contents some crash point leaves the file in a half-written state that
is neither of them. -/
theorem claim_C2 (oldContent newContent : String)
    (h1 : oldContent ≠ "") (h2 : newContent ≠ "") :
    persistCrashView newContent newContent.data.length = newContent ∧
    ∃ bytesWritten, persistCrashView newContent bytesWritten ≠ oldContent ∧
      persistCrashView newContent bytesWritten ≠ newContent := by
  refine ⟨?_, 0, ?_, ?_⟩
  · show String.mk (newContent.data.take newContent.data.length) = newContent
    rw [List.take_length]
  · show String.mk (newContent.data.take 0) = oldContent → False
    intro hx
    exact h1 hx.symm
  · show String.mk (newContent.data.take 0) = newContent → False
    intro hx
    exact h2 hx.symm

theorem claim_C2_witness :
    (("version: 1.0.0" : String) ≠ "" ∧ ("version: 2.0.0" : String) ≠ "") ∧
    persistCrashView "version: 2.0.0" ("version: 2.0.0" : String).data.length =
      "version: 2.0.0" ∧
    ∃ bytesWritten, persistCrashView "version: 2.0.0" bytesWritten ≠ "version: 1.0.0" ∧
      persistCrashView "version: 2.0.0" bytesWritten ≠ "version: 2.0.0" :=
  ⟨⟨by decide, by decide⟩, claim_C2 "version: 1.0.0" "version: 2.0.0" (by decide) (by decide)⟩

/-- Claim C4 names the code's slip: Python's `$` also matches just before a
trailing newline, so the tag `"v1.2.3\n"` — which does not match the strict
`^v<digits>.<digits>.<digits>$` pattern — is accepted by line 118 instead
of raising the format error, and the run then proceeds and writes
`"1.2.3\n"` as the new manifest version.  On newline-free tags the check
agrees with the claim (the claim's examples `"release-5"` and `"v1.2"` are
rejected, `"v1.2.3"` is accepted and stripped of the leading `v`). -/
theorem claim_C4_bug :
    pyTagMatch "v1.2.3\n" = true ∧
    strictTagMatch "v1.2.3\n" = false ∧
    (mainRun envNewlineTag).exit = .ok () ∧
    lookupKey ((mainRun envNewlineTag).manifestWrites.headD []) "version" =
      some (Json.str "1.2.3\n") ∧
    pyTagMatch "release-5" = false ∧
    pyTagMatch "v1.2" = false ∧
    pyTagMatch "v1.2.3" = true ∧
    strictTagMatch "v1.2.3" = true ∧
    ("v1.2.3" : String).drop 1 = "1.2.3" :=
  ⟨rfl, rfl, rfl, rfl, rfl, rfl, rfl, rfl, rfl⟩

/-!
## Claims about hashing
-/

theorem calcHashLoop_absorbed (chunks : List (List Nat)) :
    ∀ ctx : Sha256Ctx, (∀ c ∈ chunks, c ≠ []) →
    (calcHashLoop ctx chunks).absorbed = ctx.absorbed ++ chunks.flatten := by
  induction chunks with
  | nil => intro ctx _; simp [calcHashLoop]
  | cons chunk rest ih =>
    intro ctx h
    have hc : chunk ≠ [] := h chunk (List.mem_cons_self _ _)
    rw [calcHashLoop, if_neg hc, ih _ (fun c hcmem => h c (List.mem_cons_of_mem _ hcmem))]
    simp [Sha256Ctx.update]

theorem sha256Bytes_length (msg : List Nat) : (sha256Bytes msg).length = 32 := by
  simp [sha256Bytes, wordBytesBE]

theorem length_flatten_byteHex (l : List Nat) :
    ((l.map byteHex).flatten).length = 2 * l.length := by
  induction l with
  | nil => simp
  | cons b rest ih => simp [byteHex, ih]; omega

theorem hexDigit_mem_hexChars (n : Nat) : hexDigit n ∈ hexChars := by
  have h : n % 16 < hexChars.length := by
    have h2 : n % 16 < 16 := Nat.mod_lt _ (by norm_num)
    simpa [hexChars] using h2
  rw [hexDigit, List.getD_eq_getElem?_getD, List.getElem?_eq_getElem h]
  exact List.getElem_mem h

theorem isLowerHexChar_of_mem_hexChars : ∀ c ∈ hexChars, isLowerHexChar c = true := by
  decide

theorem sha256Hex_data_lowerHex (msg : List Nat) :
    ∀ c ∈ (sha256Hex msg).data, isLowerHexChar c = true := by
  intro c hc
  simp only [sha256Hex, List.mem_flatten, List.mem_map] at hc
  obtain ⟨cs, ⟨b, _hb, rfl⟩, hcmem⟩ := hc
  simp only [byteHex, List.mem_cons, List.not_mem_nil, or_false] at hcmem
  rcases hcmem with rfl | rfl
  · exact isLowerHexChar_of_mem_hexChars _ (hexDigit_mem_hexChars _)
  · exact isLowerHexChar_of_mem_hexChars _ (hexDigit_mem_hexChars _)

/-- Claim C7: streaming a byte sequence into the running SHA-256 digest in
chunks yields the same digest as hashing the whole sequence at once —
whatever the chunking — and the formatted result is the literal prefix
`SHA256:` followed by the 64-lowercase-hex-character digest. -/
theorem claim_C7 (chunks : List (List Nat)) (h : ∀ c ∈ chunks, c ≠ []) :
    formattedHash chunks = "SHA256:" ++ sha256Hex chunks.flatten ∧
    (sha256Hex chunks.flatten).data.length = 64 ∧
    (∀ c ∈ (sha256Hex chunks.flatten).data, isLowerHexChar c = true) := by
  refine ⟨?_, ?_, sha256Hex_data_lowerHex _⟩
  · rw [formattedHash, calculate_hash, Sha256Ctx.hexdigest, calcHashLoop_absorbed chunks _ h]
    rfl
  · show ((sha256Bytes chunks.flatten).map byteHex).flatten.length = 64
    rw [length_flatten_byteHex, sha256Bytes_length]

theorem claim_C7_witness :
    (∀ c ∈ [[97], [98, 99]], c ≠ ([] : List Nat)) ∧
    (formattedHash [[97], [98, 99]] = "SHA256:" ++ sha256Hex ([[97], [98, 99]] : List (List Nat)).flatten ∧
      (sha256Hex ([[97], [98, 99]] : List (List Nat)).flatten).data.length = 64 ∧
      (∀ c ∈ (sha256Hex ([[97], [98, 99]] : List (List Nat)).flatten).data,
        isLowerHexChar c = true)) :=
  ⟨by decide, claim_C7 [[97], [98, 99]] (by decide)⟩

end UpdateManifest
